import Mathlib

/-!
Shallow embedding of the voice-relay repository
(`src/services/pipecat/agent.py`, `processors.py`, `orchestrator.py`).

Pure data and control flow of the Python source are translated into
executable Lean definitions:

* messages and pipeline frames (`Message`, `Frame`);
* the two custom pipeline stages `ProductSearchProcessor` and
  `ConversationLogger` from `processors.py`, modelled as pure functions
  from a frame (plus an oracle for the single possible HTTP round-trip)
  to the output frame together with the list of outbound HTTP calls the
  stage issues;
* the pipeline construction `create_voice_agent` from `agent.py`;
* the Flask orchestrator from `orchestrator.py`, modelled as a state
  machine over an explicit process table and the `active_agents` map.

Python dictionaries are modelled as association lists with
overwrite-on-insert semantics; Python `set` becomes a membership list;
float timeout literals (10.0, 5.0) become the exact rationals 10 and 5.
-/

/-- One entry of an `LLMMessagesFrame.messages` list: a Python dict with
optional `role`, `content` and `name` keys (`message.get` returns `None`
for a missing key, modelled by `Option`). -/
structure Message where
  role : Option String
  content : Option String
  name : Option String := none
deriving DecidableEq, Repr

/-- A pipeline frame. The Python code only inspects frames via
`isinstance(frame, FunctionCallFrame)` and `isinstance(frame, LLMMessagesFrame)`;
every other frame kind (audio, control, ...) is opaque to the custom stages
and collapsed into `other`. -/
inductive Frame
  | functionCall (function_name : String) (arguments : String)
  | llmMessages (messages : List Message)
  | other (tag : String)
deriving DecidableEq, Repr

/-- Whether a frame is a FunctionCallFrame with function_name = "search_products",
the only frame kind that `ProductSearchProcessor` treats specially. -/
def Frame.isSearchProductsCall : Frame → Bool
  | .functionCall fn _ => fn == "search_products"
  | _ => false

/-- Number of messages carried by a frame (0 for non-message frames). -/
def Frame.messageCount : Frame → Nat
  | .llmMessages ms => ms.length
  | _ => 0

/-- Python `s.rstrip('/')`: drop every trailing slash. -/
def rstripSlash (s : String) : String :=
  s.dropRightWhile (· = '/')

/-- Outcome of the single HTTP round-trip a stage may attempt, supplied by
the environment: either a response arrived (with its status code and, for
the 200 path, the Python-rendered `str(response.json())`), or somewhere in
the `try` block an exception was raised (connection error, timeout,
JSON-decoding failure, ...). -/
inductive ConvexResult
  | resp (status : Nat) (rendered : String)
  | exn (msg : String)
deriving DecidableEq, Repr

/-- Timeout of the `/searchProducts` call (`timeout=10.0` in `processors.py`). -/
def search_timeout : ℚ := 10

/-- Timeout of the `/addTranscript` call (`timeout=5.0` in `processors.py`). -/
def transcript_timeout : ℚ := 5

/-- Record of one outbound POST to the Convex `/searchProducts` endpoint. -/
structure OutboundCall where
  url : String
  userId : String
  sessionId : String
  attributes : String
  timeout : ℚ
deriving DecidableEq, Repr

/-- Record of one outbound POST to the Convex `/addTranscript` endpoint.
`key` is the dedup key (`f"{role}:{content[:50]}"`) under which the logger
registered this call in its seen-set; it is carried along for specification
purposes and is not part of the JSON payload. -/
structure LogCall where
  url : String
  sessionId : String
  speaker : String
  text : String
  timestamp : Nat
  timeout : ℚ
  key : String
deriving DecidableEq, Repr

/-- Configuration of a `ProductSearchProcessor` instance. -/
structure ProductSearchProcessor where
  user_id : String
  session_id : String
  convex_url : String
deriving DecidableEq, Repr

/-- `ProductSearchProcessor.__init__`: stores the ids and the rstripped URL. -/
def ProductSearchProcessor.create (user_id session_id convex_url : String) :
    ProductSearchProcessor :=
  ⟨user_id, session_id, rstripSlash convex_url⟩

/-- The single message `{"role": "function", "name": "search_products", "content": c}`
that `ProductSearchProcessor` returns to the LLM. -/
def functionResultMessage (c : String) : Message :=
  { role := some "function", content := some c, name := some "search_products" }

/-- Apology content returned on a non-200 search response. -/
def searchFailContent : String :=
  "Sorry, I couldn\x27t search for products right now. Please try again."

/-- Apology content returned when the search call raises an exception. -/
def searchErrorContent : String :=
  "Sorry, I encountered an error while searching. Please try again."

/-- `ProductSearchProcessor.process_frame`. On a `search_products` function
call it POSTs to `/searchProducts` and turns the outcome into an
`LLMMessagesFrame` with a single function-role message; every other frame is
returned unchanged. The returned list records the outbound calls attempted. -/
def ProductSearchProcessor.process_frame (p : ProductSearchProcessor)
    (oracle : ConvexResult) (frame : Frame) : Frame × List OutboundCall :=
  match frame with
  | .functionCall fn args =>
    if fn = "search_products" then
      let call : OutboundCall :=
        { url := p.convex_url ++ "/searchProducts", userId := p.user_id,
          sessionId := p.session_id, attributes := args, timeout := search_timeout }
      match oracle with
      | .resp status rendered =>
        if status = 200 then
          (.llmMessages [functionResultMessage rendered], [call])
        else
          (.llmMessages [functionResultMessage searchFailContent], [call])
      | .exn _ =>
        (.llmMessages [functionResultMessage searchErrorContent], [call])
    else (frame, [])
  | f => (f, [])

/-- Configuration of a `ConversationLogger` instance.  Its mutable
`logged_messages` seen-set is threaded separately as a `List String`
(initially empty, matching `self.logged_messages = set()`). -/
structure ConversationLogger where
  user_id : String
  session_id : String
  convex_url : String
deriving DecidableEq, Repr

/-- `ConversationLogger.__init__`: stores the ids and the rstripped URL. -/
def ConversationLogger.create (user_id session_id convex_url : String) :
    ConversationLogger :=
  ⟨user_id, session_id, rstripSlash convex_url⟩

/-- Python f-string rendering of the `role` slot (`None` renders as "None"). -/
def roleStr : Option String → String
  | none => "None"
  | some r => r

/-- The `continue` guard: skip system/function messages and messages with
falsy (missing or empty) content. -/
def skipMessage (m : Message) : Bool :=
  m.role == some "system" || m.role == some "function" ||
    (match m.content with
     | none => true
     | some c => c.isEmpty)

/-- Dedup key `f"{role}:{content[:50]}"`. -/
def messageKey (m : Message) : String :=
  roleStr m.role ++ ":" ++ (m.content.getD "").take 50

/-- Speaker mapping: `"user" if role == "user" else "agent"`. -/
def speakerOf (m : Message) : String :=
  if m.role == some "user" then "user" else "agent"

/-- The message loop of `ConversationLogger.process_frame`: walk the
messages, skipping ineligible or already-seen ones, and for each new
eligible message add its key to the seen-set and issue one `/addTranscript`
POST. Returns the final seen-set and the calls issued, in order. -/
def ConversationLogger.processMessages (cl : ConversationLogger) (now : Nat) :
    List Message → List String → List String × List LogCall
  | [], seen => (seen, [])
  | m :: rest, seen =>
    if skipMessage m then cl.processMessages now rest seen
    else if messageKey m ∈ seen then cl.processMessages now rest seen
    else
      let call : LogCall :=
        { url := cl.convex_url ++ "/addTranscript", sessionId := cl.session_id,
          speaker := speakerOf m, text := m.content.getD "", timestamp := now,
          timeout := transcript_timeout, key := messageKey m }
      let res := cl.processMessages now rest (messageKey m :: seen)
      (res.1, call :: res.2)

/-- `ConversationLogger.process_frame`: on an `LLMMessagesFrame` run the
message loop; every frame is passed through unchanged. Result is
(output frame, new seen-set, calls issued). `now` is `int(time.time()*1000)`. -/
def ConversationLogger.process_frame (cl : ConversationLogger)
    (seen : List String) (now : Nat) (frame : Frame) :
    Frame × List String × List LogCall :=
  match frame with
  | .llmMessages ms =>
    let r := cl.processMessages now ms seen
    (frame, r.1, r.2)
  | f => (f, seen, [])

/-- Run a `ConversationLogger` over a sequence of frames (each paired with
its wall-clock time), starting from a given seen-set; collects all calls. -/
def ConversationLogger.runFrames (cl : ConversationLogger) :
    List (Nat × Frame) → List String → List String × List LogCall
  | [], seen => (seen, [])
  | (now, f) :: rest, seen =>
    ((cl.runFrames rest (cl.process_frame seen now f).2.1).1,
      (cl.process_frame seen now f).2.2 ++
        (cl.runFrames rest (cl.process_frame seen now f).2.1).2)

/-- Daily transport parameters as configured in `agent.py`. -/
structure DailyParamsCfg where
  audio_in_enabled : Bool
  audio_out_enabled : Bool
  video_out_enabled : Bool
  vad_enabled : Bool
  vad_analyzer : String
deriving DecidableEq, Repr

/-- The concrete `DailyParams(...)` record built by `create_voice_agent`. -/
def agentDailyParams : DailyParamsCfg :=
  { audio_in_enabled := true, audio_out_enabled := true, video_out_enabled := false,
    vad_enabled := true, vad_analyzer := "SILERO" }

/-- Kinds of pipeline stage, abstracting away each stage's configuration. -/
inductive StageKind
  | dailyTransportInput
  | geminiLLM
  | llmResponseAggregator
  | productSearch
  | conversationLogger
  | dailyTransportOutput
deriving DecidableEq, Repr

/-- A configured pipeline stage, as assembled by `create_voice_agent`. -/
inductive Stage
  | dailyTransportInput (room_url token bot_name : String) (params : DailyParamsCfg)
  | geminiLLM (api_key model : String) (temperature : ℚ) (max_output_tokens : Nat)
  | llmResponseAggregator
  | productSearch (p : ProductSearchProcessor)
  | conversationLogger (c : ConversationLogger)
  | dailyTransportOutput (room_url token bot_name : String) (params : DailyParamsCfg)
deriving DecidableEq, Repr

/-- Forget a stage's configuration. -/
def Stage.kind : Stage → StageKind
  | .dailyTransportInput .. => .dailyTransportInput
  | .geminiLLM .. => .geminiLLM
  | .llmResponseAggregator => .llmResponseAggregator
  | .productSearch .. => .productSearch
  | .conversationLogger .. => .conversationLogger
  | .dailyTransportOutput .. => .dailyTransportOutput

/-- The pipeline list built by `create_voice_agent` in `agent.py`:
`[transport.input_processor(), gemini_service, aggregator, product_processor,
conversation_logger, transport.output_processor()]`, each stage carrying the
configuration the Python code gives it. -/
def create_voice_agent (room_url token user_id session_id gemini_api_key
    convex_url : String) : List Stage :=
  let params := agentDailyParams
  let product_processor := ProductSearchProcessor.create user_id session_id convex_url
  let conversation_logger := ConversationLogger.create user_id session_id convex_url
  [ Stage.dailyTransportInput room_url token "Voice Shopping Agent" params,
    Stage.geminiLLM gemini_api_key "gemini-2.0-flash-exp" (7 / 10) 500,
    Stage.llmResponseAggregator,
    Stage.productSearch product_processor,
    Stage.conversationLogger conversation_logger,
    Stage.dailyTransportOutput room_url token "Voice Shopping Agent" params ]

/-- Lookup in a string-keyed association list (Python `d[k]` / `k in d`). -/
def lookupStr (l : List (String × String)) (k : String) : Option String :=
  (l.find? (fun p => p.1 == k)).map (·.2)

/-- Overwrite-on-insert for a string-keyed association list (Python `d[k] = v`). -/
def upsertStr (l : List (String × String)) (k v : String) :
    List (String × String) :=
  (k, v) :: l.filter (fun p => p.1 != k)

/-- One entry of the orchestrator's `active_agents` dict: the subprocess
(identified by its pid) plus the room_url and user_id stored alongside it. -/
structure AgentEntry where
  pid : Nat
  room_url : String
  user_id : String
deriving DecidableEq, Repr

/-- Lookup in the `active_agents` map. -/
def lookupAgent (l : List (String × AgentEntry)) (k : String) : Option AgentEntry :=
  (l.find? (fun p => p.1 == k)).map (·.2)

/-- `active_agents[session_id] = info` (overwrite-on-insert). -/
def upsertAgent (l : List (String × AgentEntry)) (k : String) (v : AgentEntry) :
    List (String × AgentEntry) :=
  (k, v) :: l.filter (fun p => p.1 != k)

/-- `del active_agents[session_id]`. -/
def removeAgent (l : List (String × AgentEntry)) (k : String) :
    List (String × AgentEntry) :=
  l.filter (fun p => p.1 != k)

/-- One OS process spawned by the orchestrator: its pid, the environment it
was started with, and whether it is still running. -/
structure Proc where
  pid : Nat
  env : List (String × String)
  alive : Bool
deriving DecidableEq, Repr

/-- Orchestrator state: the (ever-growing) OS process table for processes it
spawned, the `active_agents` dict, and the next pid the OS will hand out. -/
structure OrchState where
  procs : List Proc
  active_agents : List (String × AgentEntry)
  nextPid : Nat
deriving DecidableEq, Repr

/-- Initial orchestrator state: `active_agents = {}`, nothing spawned. -/
def initState : OrchState :=
  { procs := [], active_agents := [], nextPid := 1 }

/-- JSON body of an orchestrator HTTP response (only the fields the handlers
ever set). -/
structure OrchResponse where
  status : Nat
  error : Option String
  session_id : Option String
  pid : Option Nat
deriving DecidableEq, Repr

/-- `time.sleep(0.5)` before the single liveness poll, in milliseconds. -/
def startup_poll_delay_ms : Nat := 500

/-- The fixed field list `required_fields` of the `/start-agent` handler. -/
def required_fields : List String := ["room_url", "token", "session_id", "user_id"]

/-- First required field missing from the request payload, in the order the
handler checks them; `none` when all four are present. -/
def firstMissing (data : List (String × String)) : Option String :=
  required_fields.find? (fun f => (lookupStr data f).isNone)

/-- `agent_env = os.environ.copy()` followed by `agent_env.update({...})`
with the four session-specific variables. -/
def buildAgentEnv (base : List (String × String))
    (room_url token session_id user_id : String) : List (String × String) :=
  upsertStr (upsertStr (upsertStr (upsertStr base
    "DAILY_ROOM_URL" room_url) "DAILY_TOKEN" token)
    "SESSION_ID" session_id) "USER_ID" user_id

/-- Mark the process with the given pid as no longer running. -/
def markDead (procs : List Proc) (pid : Nat) : List Proc :=
  procs.map (fun q => if q.pid = pid then { q with alive := false } else q)

/-- The `/start-agent` handler. `base` is the orchestrator's `os.environ`;
`crashedAtPoll` is the outcome of the single `agent_process.poll()` made
500ms after the spawn (`true` iff the process had already exited). The
handler validates the payload, spawns the subprocess with the session
environment, overwrites `active_agents[session_id]`, then polls once:
on a crash it deletes the entry and answers 500, otherwise it answers 200
with the session id and pid. -/
def start_agent (st : OrchState) (base : List (String × String))
    (data : List (String × String)) (crashedAtPoll : Bool) :
    OrchState × OrchResponse :=
  match firstMissing data with
  | some f =>
    (st, { status := 400, error := some ("Missing required field: " ++ f),
           session_id := none, pid := none })
  | none =>
    let room_url := (lookupStr data "room_url").getD ""
    let token := (lookupStr data "token").getD ""
    let session_id := (lookupStr data "session_id").getD ""
    let user_id := (lookupStr data "user_id").getD ""
    let agent_env := buildAgentEnv base room_url token session_id user_id
    let pid := st.nextPid
    let agent_process : Proc := { pid := pid, env := agent_env, alive := true }
    let st1 : OrchState :=
      { procs := st.procs ++ [agent_process],
        active_agents := upsertAgent st.active_agents session_id
          { pid := pid, room_url := room_url, user_id := user_id },
        nextPid := pid + 1 }
    if crashedAtPoll then
      ({ st1 with procs := markDead st1.procs pid,
                  active_agents := removeAgent st1.active_agents session_id },
       { status := 500, error := some "Agent crashed on startup",
         session_id := none, pid := none })
    else
      (st1, { status := 200, error := none, session_id := some session_id,
              pid := some pid })

/-- The `/stop-agent/<session_id>` handler. `exitedInTime` tells whether the
terminated process exited within the 5 second `wait`; if not, the
`TimeoutExpired` exception lands in the `except` branch, so the entry stays
in `active_agents` and the handler answers 500. -/
def stop_agent (st : OrchState) (session_id : String) (exitedInTime : Bool) :
    OrchState × OrchResponse :=
  match lookupAgent st.active_agents session_id with
  | none =>
    (st, { status := 404, error := some "Agent not found",
           session_id := none, pid := none })
  | some info =>
    if exitedInTime then
      ({ st with procs := markDead st.procs info.pid,
                 active_agents := removeAgent st.active_agents session_id },
       { status := 200, error := none, session_id := none, pid := none })
    else
      (st, { status := 500, error := some "TimeoutExpired",
             session_id := none, pid := none })

/-- States of the orchestrator reachable from `initState` by any sequence of
`/start-agent` and `/stop-agent` requests (with any poll outcomes). -/
inductive Reachable (base : List (String × String)) : OrchState → Prop
  | init : Reachable base initState
  | start (st : OrchState) (data : List (String × String)) (crashed : Bool) :
      Reachable base st → Reachable base (start_agent st base data crashed).1
  | stop (st : OrchState) (sid : String) (exited : Bool) :
      Reachable base st → Reachable base (stop_agent st sid exited).1

/-! ### Shared helper lemmas -/

theorem processMessages_length_le (cl : ConversationLogger) (now : Nat) :
    ∀ (msgs : List Message) (seen : List String),
      (cl.processMessages now msgs seen).2.length ≤ msgs.length := by
  intro msgs
  induction msgs with
  | nil => intro seen; simp [ConversationLogger.processMessages]
  | cons m rest ih =>
    intro seen
    by_cases h1 : skipMessage m
    · simp only [ConversationLogger.processMessages, h1, if_true]
      exact Nat.le_succ_of_le (ih seen)
    · by_cases h2 : messageKey m ∈ seen
      · simp only [ConversationLogger.processMessages, h1, h2, if_true, if_false]
        exact Nat.le_succ_of_le (ih seen)
      · simp only [ConversationLogger.processMessages, h1, h2, if_false,
          List.length_cons]
        exact Nat.succ_le_succ (ih (messageKey m :: seen))

theorem processMessages_timeout (cl : ConversationLogger) (now : Nat) :
    ∀ (msgs : List Message) (seen : List String) (c : LogCall),
      c ∈ (cl.processMessages now msgs seen).2 → c.timeout = transcript_timeout := by
  intro msgs
  induction msgs with
  | nil => intro seen c hc; simp [ConversationLogger.processMessages] at hc
  | cons m rest ih =>
    intro seen c hc
    by_cases h1 : skipMessage m
    · rw [ConversationLogger.processMessages] at hc
      rw [if_pos h1] at hc
      exact ih seen c hc
    · by_cases h2 : messageKey m ∈ seen
      · rw [ConversationLogger.processMessages] at hc
        rw [if_neg h1, if_pos h2] at hc
        exact ih seen c hc
      · rw [ConversationLogger.processMessages] at hc
        rw [if_neg h1, if_neg h2] at hc
        rcases List.mem_cons.mp hc with hc | hc
        · rw [hc]
        · exact ih (messageKey m :: seen) c hc

theorem processMessages_dedup (cl : ConversationLogger) (now : Nat) (k : String) :
    ∀ (msgs : List Message) (seen : List String),
      ((cl.processMessages now msgs seen).2.countP (fun c => c.key == k) ≤
          if k ∈ seen then 0 else 1)
      ∧ (k ∈ seen → k ∈ (cl.processMessages now msgs seen).1)
      ∧ (0 < (cl.processMessages now msgs seen).2.countP (fun c => c.key == k) →
          k ∈ (cl.processMessages now msgs seen).1) := by
  intro msgs
  induction msgs with
  | nil =>
    intro seen
    refine ⟨?_, fun h => h, fun h => ?_⟩
    · rw [ConversationLogger.processMessages]
      simp only [List.countP_nil]
      split <;> omega
    · rw [ConversationLogger.processMessages] at h
      simp at h
  | cons m rest ih =>
    intro seen
    by_cases h1 : skipMessage m
    · rw [ConversationLogger.processMessages, if_pos h1]
      exact ih seen
    · by_cases h2 : messageKey m ∈ seen
      · rw [ConversationLogger.processMessages, if_neg h1, if_pos h2]
        exact ih seen
      · have ih' := ih (messageKey m :: seen)
        rw [ConversationLogger.processMessages, if_neg h1, if_neg h2]
        simp only [List.countP_cons]
        by_cases h3 : messageKey m = k
        · have hk : k ∉ seen := h3 ▸ h2
          have hmem : k ∈ messageKey m :: seen := by
            rw [h3]; exact List.mem_cons_self _ _
          have hz := ih'.1
          rw [if_pos hmem] at hz
          refine ⟨?_, fun h => ih'.2.1 (List.mem_cons_of_mem _ h),
            fun _ => ih'.2.1 hmem⟩
          rw [if_neg hk]
          have hbeq : ((messageKey m : String) == k) = true := by
            simp [h3]
          rw [hbeq]
          simp only [if_true]
          omega
        · have hfalse : ((messageKey m : String) == k) = false := by
            simp [h3]
          rw [hfalse]
          simp only [Bool.false_eq_true, if_false, Nat.add_zero]
          have hiff : (k ∈ messageKey m :: seen) ↔ k ∈ seen := by
            rw [List.mem_cons]
            constructor
            · rintro (h | h)
              · exact absurd h.symm h3
              · exact h
            · exact Or.inr
          have hle := ih'.1
          refine ⟨?_, fun h => ih'.2.1 (List.mem_cons_of_mem _ h), ih'.2.2⟩
          by_cases hk : k ∈ seen
          · rw [if_pos hk]
            rw [if_pos (hiff.mpr hk)] at hle
            exact hle
          · rw [if_neg hk]
            rw [if_neg (fun h => hk (hiff.mp h))] at hle
            exact hle

theorem process_frame_dedup (cl : ConversationLogger) (k : String) (now : Nat)
    (frame : Frame) (seen : List String) :
    ((cl.process_frame seen now frame).2.2.countP (fun c => c.key == k) ≤
        if k ∈ seen then 0 else 1)
    ∧ (k ∈ seen → k ∈ (cl.process_frame seen now frame).2.1)
    ∧ (0 < (cl.process_frame seen now frame).2.2.countP (fun c => c.key == k) →
        k ∈ (cl.process_frame seen now frame).2.1) := by
  cases frame with
  | llmMessages ms =>
    exact processMessages_dedup cl now k ms seen
  | functionCall fn args =>
    refine ⟨?_, fun h => h, fun h => by simp [ConversationLogger.process_frame] at h⟩
    simp only [ConversationLogger.process_frame, List.countP_nil]
    split <;> omega
  | other t =>
    refine ⟨?_, fun h => h, fun h => by simp [ConversationLogger.process_frame] at h⟩
    simp only [ConversationLogger.process_frame, List.countP_nil]
    split <;> omega

theorem runFrames_dedup (cl : ConversationLogger) (k : String) :
    ∀ (frames : List (Nat × Frame)) (seen : List String),
      ((cl.runFrames frames seen).2.countP (fun c => c.key == k) ≤
          if k ∈ seen then 0 else 1)
      ∧ (k ∈ seen → k ∈ (cl.runFrames frames seen).1)
      ∧ (0 < (cl.runFrames frames seen).2.countP (fun c => c.key == k) →
          k ∈ (cl.runFrames frames seen).1) := by
  intro frames
  induction frames with
  | nil =>
    intro seen
    refine ⟨?_, fun h => h, fun h => ?_⟩
    · rw [ConversationLogger.runFrames]
      simp only [List.countP_nil]
      split <;> omega
    · rw [ConversationLogger.runFrames] at h
      simp at h
  | cons nf rest ih =>
    intro seen
    obtain ⟨now, f⟩ := nf
    have h1 := process_frame_dedup cl k now f seen
    have h2 := ih (cl.process_frame seen now f).2.1
    rw [ConversationLogger.runFrames]
    simp only [List.countP_append]
    by_cases hk : k ∈ seen
    · have hs1 : k ∈ (cl.process_frame seen now f).2.1 := h1.2.1 hk
      have a1 := h1.1
      rw [if_pos hk] at a1
      have a2 := h2.1
      rw [if_pos hs1] at a2
      refine ⟨?_, fun _ => h2.2.1 hs1, fun _ => h2.2.1 hs1⟩
      rw [if_pos hk]
      omega
    · by_cases hs1 : k ∈ (cl.process_frame seen now f).2.1
      · have a1 := h1.1
        rw [if_neg hk] at a1
        have a2 := h2.1
        rw [if_pos hs1] at a2
        refine ⟨?_, fun h => absurd h hk, fun _ => h2.2.1 hs1⟩
        rw [if_neg hk]
        omega
      · have a1 : ((cl.process_frame seen now f).2.2.countP
            (fun c => c.key == k)) = 0 := by
          by_contra hne
          exact hs1 (h1.2.2 (Nat.pos_of_ne_zero hne))
        have a2 := h2.1
        rw [if_neg hs1] at a2
        refine ⟨?_, fun h => absurd h hk, fun hpos => ?_⟩
        · rw [if_neg hk]
          omega
        · refine h2.2.2 ?_
          omega

theorem lookupStr_upsert_self (l : List (String × String)) (k v : String) :
    lookupStr (upsertStr l k v) k = some v := by
  simp [lookupStr, upsertStr, List.find?]

theorem find?_filter_ne (l : List (String × String)) (k k' : String)
    (h : k' ≠ k) :
    (l.filter (fun p => p.1 != k)).find? (fun p => p.1 == k') =
      l.find? (fun p => p.1 == k') := by
  induction l with
  | nil => rfl
  | cons a l ih =>
    by_cases ha : a.1 = k'
    · simp [List.filter_cons, List.find?_cons, ha, h, ih]
    · by_cases hak : a.1 = k
      · simp [List.filter_cons, List.find?_cons, ha, hak, ih, Ne.symm h]
      · simp [List.filter_cons, List.find?_cons, ha, hak, ih]

theorem lookupStr_upsert_ne (l : List (String × String)) (k v k' : String)
    (h : k' ≠ k) :
    lookupStr (upsertStr l k v) k' = lookupStr l k' := by
  have h2 := find?_filter_ne l k k' h
  simp only [lookupStr, upsertStr, List.find?_cons]
  have h1 : (((k, v) : String × String).1 == k') = false := by
    simp [Ne.symm h]
  rw [h1, h2]

theorem lookupAgent_removeAgent_self (l : List (String × AgentEntry)) (k : String) :
    lookupAgent (removeAgent l k) k = none := by
  induction l with
  | nil => rfl
  | cons a l ih =>
    by_cases ha : a.1 = k
    · simp only [removeAgent, lookupAgent, List.filter_cons] at ih ⊢
      simp [ha, ih]
    · simp only [removeAgent, lookupAgent, List.filter_cons, List.find?_cons]
        at ih ⊢
      simp [ha, ih]

theorem firstMissing_none_lookup (data : List (String × String))
    (h : firstMissing data = none) (f : String) (hf : f ∈ required_fields) :
    ∃ v, lookupStr data f = some v := by
  have hall := List.find?_eq_none.mp h f hf
  cases hx : lookupStr data f with
  | none => rw [hx] at hall; simp at hall
  | some v => exact ⟨v, rfl⟩

theorem countP_removeAgent_le (l : List (String × AgentEntry)) (k sid : String) :
    (removeAgent l k).countP (fun e => e.1 == sid) ≤
      l.countP (fun e => e.1 == sid) :=
  List.Sublist.countP_le _ (List.filter_sublist l)

theorem countP_upsertAgent_le_one (l : List (String × AgentEntry)) (k : String)
    (v : AgentEntry) (sid : String)
    (h : l.countP (fun e => e.1 == sid) ≤ 1) :
    (upsertAgent l k v).countP (fun e => e.1 == sid) ≤ 1 := by
  unfold upsertAgent
  rw [List.countP_cons]
  by_cases hk : k = sid
  · have hz : (l.filter (fun p => p.1 != k)).countP (fun e => e.1 == sid) = 0 := by
      rw [List.countP_eq_zero]
      intro a ha
      have hne := (List.mem_filter.mp ha).2
      simp only [bne_iff_ne, ne_eq] at hne
      simp [hk ▸ hne]
    rw [hz]
    split <;> omega
  · have hfalse : (((k, v) : String × AgentEntry).1 == sid) = false := by
      simp [hk]
    rw [hfalse]
    have hle : (l.filter (fun p => p.1 != k)).countP (fun e => e.1 == sid) ≤
        l.countP (fun e => e.1 == sid) :=
      List.Sublist.countP_le _ (List.filter_sublist l)
    simp only [Bool.false_eq_true, if_false]
    omega

/-! ### Claim theorems -/

/-- Claim C2: `create_voice_agent` builds a fixed linear pipeline of exactly
six stages in this order: Daily transport input, Gemini LLM service, LLM
response aggregator, product-search processor, conversation logger, Daily
transport output; for all argument values the stage-kind list is the same
constant, so the arguments only configure the stages. -/
theorem create_voice_agent_pipeline_shape (room_url token user_id session_id
    gemini_api_key convex_url : String) :
    (create_voice_agent room_url token user_id session_id gemini_api_key
        convex_url).map Stage.kind =
      [StageKind.dailyTransportInput, StageKind.geminiLLM,
       StageKind.llmResponseAggregator, StageKind.productSearch,
       StageKind.conversationLogger, StageKind.dailyTransportOutput]
    ∧ (create_voice_agent room_url token user_id session_id gemini_api_key
        convex_url).length = 6 :=
  ⟨rfl, rfl⟩

/-- Claim C3: the two custom stages are pass-through. For every frame that is
not a FunctionCallFrame with function_name "search_products",
`ProductSearchProcessor.process_frame` returns the input frame unchanged; and
for every frame, `ConversationLogger.process_frame` returns the input frame
unchanged (its effects are confined to the seen-set and the logging calls). -/
theorem custom_stages_pass_through :
    (∀ (p : ProductSearchProcessor) (oracle : ConvexResult) (frame : Frame),
        frame.isSearchProductsCall = false →
        (p.process_frame oracle frame).1 = frame)
    ∧ ∀ (cl : ConversationLogger) (seen : List String) (now : Nat)
        (frame : Frame), (cl.process_frame seen now frame).1 = frame := by
  constructor
  · intro p oracle frame h
    cases frame with
    | functionCall fn args =>
      simp only [Frame.isSearchProductsCall, beq_eq_false_iff_ne, ne_eq] at h
      simp [ProductSearchProcessor.process_frame, h]
    | llmMessages ms => rfl
    | other t => rfl
  · intro cl seen now frame
    cases frame <;> rfl

/-- Witness for C3 at a concrete non-search frame. -/
theorem custom_stages_pass_through_witness :
    (Frame.other "audio").isSearchProductsCall = false
    ∧ ((ProductSearchProcessor.create "user1" "sess1"
        "https://cvx.convex.site/").process_frame (.exn "boom")
        (Frame.other "audio")).1 = Frame.other "audio" :=
  ⟨rfl, custom_stages_pass_through.1
    (ProductSearchProcessor.create "user1" "sess1" "https://cvx.convex.site/")
    (.exn "boom") (Frame.other "audio") rfl⟩

/-- Claim C10: on a `search_products` FunctionCallFrame the product-search
stage never propagates an error: it always returns an `LLMMessagesFrame`
with exactly one message of role "function" and name "search_products",
whose content is the stringified search results when the call returns
status 200, and an apology message when the call returns a non-200 status
or raises an exception. -/
theorem search_frame_never_propagates_error (p : ProductSearchProcessor)
    (args : String) (oracle : ConvexResult) :
    (p.process_frame oracle (Frame.functionCall "search_products" args)).1 =
      Frame.llmMessages [functionResultMessage
        (match oracle with
         | .resp status rendered =>
           if status = 200 then rendered else searchFailContent
         | .exn _ => searchErrorContent)] := by
  cases oracle with
  | resp s r =>
    by_cases h : s = 200 <;>
      simp [ProductSearchProcessor.process_frame, h]
  | exn m => rfl

/-- Claim C4: transcript logging is deduplicated by the seen-set. Over any
sequence of frames processed by one `ConversationLogger` instance (seen-set
initially empty), at most one `/addTranscript` call is issued per dedup key
`role + ":" + content[:50]`; re-processing a message whose key was already
logged issues no further call. -/
theorem transcript_logging_deduplicated (cl : ConversationLogger)
    (frames : List (Nat × Frame)) (k : String) :
    ((cl.runFrames frames []).2.countP (fun c => c.key == k)) ≤ 1 := by
  have h := (runFrames_dedup cl k frames []).1
  simpa using h

/-- Counterexample to claim C6 as stated: the two outbound calls do not
share one common timeout value; the `/searchProducts` call is issued with
timeout 10.0 while the `/addTranscript` call is issued with timeout 5.0. -/
theorem outbound_timeout_values_differ :
    ((ProductSearchProcessor.create "user1" "sess1"
        "https://cvx.convex.site").process_frame (.resp 200 "results")
        (Frame.functionCall "search_products" "category=shoes")).2.map
          OutboundCall.timeout = [search_timeout]
    ∧ ((ConversationLogger.create "user1" "sess1"
        "https://cvx.convex.site").process_frame [] 0
        (Frame.llmMessages [{ role := some "user", content := some "hello" }])).2.2.map
          LogCall.timeout = [transcript_timeout]
    ∧ search_timeout ≠ transcript_timeout := by
  refine ⟨rfl, rfl, ?_⟩
  rw [search_timeout, transcript_timeout]
  norm_num

/-- Claim C6, amended: each of the two outbound call sites uses one fixed
timeout value for every call it issues, but the two sites use different
values: every `/searchProducts` call carries `search_timeout` (10.0 s) and
every `/addTranscript` call carries `transcript_timeout` (5.0 s). -/
theorem outbound_timeouts_fixed_per_endpoint :
    (∀ (p : ProductSearchProcessor) (oracle : ConvexResult) (frame : Frame),
        ∀ c ∈ (p.process_frame oracle frame).2, c.timeout = search_timeout)
    ∧ ∀ (cl : ConversationLogger) (seen : List String) (now : Nat)
        (frame : Frame),
        ∀ c ∈ (cl.process_frame seen now frame).2.2,
          c.timeout = transcript_timeout := by
  constructor
  · intro p oracle frame c hc
    cases frame with
    | functionCall fn args =>
      by_cases h : fn = "search_products"
      · cases oracle with
        | resp s r =>
          by_cases h2 : s = 200 <;>
            simp [ProductSearchProcessor.process_frame, h, h2] at hc <;>
            simp [hc]
        | exn m =>
          simp [ProductSearchProcessor.process_frame, h] at hc
          simp [hc]
      · simp [ProductSearchProcessor.process_frame, h] at hc
    | llmMessages ms => simp [ProductSearchProcessor.process_frame] at hc
    | other t => simp [ProductSearchProcessor.process_frame] at hc
  · intro cl seen now frame c hc
    cases frame with
    | llmMessages ms => exact processMessages_timeout cl now ms seen c hc
    | functionCall fn args => simp [ConversationLogger.process_frame] at hc
    | other t => simp [ConversationLogger.process_frame] at hc

/-- Witness for the amended C6 at one concrete call of each kind. -/
theorem outbound_timeouts_fixed_per_endpoint_witness :
    (∃ c ∈ ((ProductSearchProcessor.create "user1" "sess1"
        "https://cvx.convex.site").process_frame (.resp 200 "results")
        (Frame.functionCall "search_products" "category=shoes")).2,
      c.timeout = search_timeout)
    ∧ ∃ c ∈ ((ConversationLogger.create "user1" "sess1"
        "https://cvx.convex.site").process_frame [] 0
        (Frame.llmMessages [{ role := some "user", content := some "hello" }])).2.2,
      c.timeout = transcript_timeout :=
  ⟨⟨_, List.mem_cons_self _ _,
    outbound_timeouts_fixed_per_endpoint.1
      (ProductSearchProcessor.create "user1" "sess1" "https://cvx.convex.site")
      (.resp 200 "results") (Frame.functionCall "search_products" "category=shoes")
      _ (List.mem_cons_self _ _)⟩,
   ⟨_, List.mem_cons_self _ _,
    outbound_timeouts_fixed_per_endpoint.2
      (ConversationLogger.create "user1" "sess1" "https://cvx.convex.site")
      [] 0 (Frame.llmMessages [{ role := some "user", content := some "hello" }])
      _ (List.mem_cons_self _ _)⟩⟩

set_option maxRecDepth 4000 in
/-- Counterexample to claim C7 as stated: one `LLMMessagesFrame` carrying two
distinct unseen user messages makes `ConversationLogger` issue two
`/addTranscript` POSTs while processing that single frame. -/
theorem logger_two_calls_in_one_frame :
    ((ConversationLogger.create "user1" "sess1"
        "https://cvx.convex.site").process_frame [] 0
      (Frame.llmMessages
        [{ role := some "user", content := some "hello" },
         { role := some "user", content := some "world" }])).2.2.length = 2 := by
  decide

/-- Claim C7, amended: `ProductSearchProcessor` issues at most one outbound
HTTP request per processed frame; `ConversationLogger` issues at most one
`/addTranscript` request per message of the processed frame (so a frame
carrying n messages can trigger up to n requests, not at most one). -/
theorem outbound_calls_bounded_per_frame_and_message :
    (∀ (p : ProductSearchProcessor) (oracle : ConvexResult) (frame : Frame),
        (p.process_frame oracle frame).2.length ≤ 1)
    ∧ ∀ (cl : ConversationLogger) (seen : List String) (now : Nat)
        (frame : Frame),
        (cl.process_frame seen now frame).2.2.length ≤ frame.messageCount := by
  constructor
  · intro p oracle frame
    cases frame with
    | functionCall fn args =>
      by_cases h : fn = "search_products"
      · rw [ProductSearchProcessor.process_frame, if_pos h]
        cases oracle with
        | resp s r => by_cases h2 : s = 200 <;> simp [h2]
        | exn m => simp
      · rw [ProductSearchProcessor.process_frame, if_neg h]
        simp
    | llmMessages ms => simp [ProductSearchProcessor.process_frame]
    | other t => simp [ProductSearchProcessor.process_frame]
  · intro cl seen now frame
    cases frame with
    | llmMessages ms =>
      exact processMessages_length_le cl now ms seen
    | functionCall fn args => simp [ConversationLogger.process_frame, Frame.messageCount]
    | other t => simp [ConversationLogger.process_frame, Frame.messageCount]

theorem lookupAgent_upsert_self (l : List (String × AgentEntry)) (k : String)
    (v : AgentEntry) : lookupAgent (upsertAgent l k v) k = some v := by
  simp [lookupAgent, upsertAgent, List.find?]

theorem getLast?_append_singleton {α : Type} (l : List α) (a : α) :
    (l ++ [a]).getLast? = some a := by
  induction l with
  | nil => rfl
  | cons b l ih =>
    rw [List.cons_append, List.getLast?_cons, ih]
    rfl

theorem buildAgentEnv_lookups (base : List (String × String)) (r t s u : String) :
    lookupStr (buildAgentEnv base r t s u) "DAILY_ROOM_URL" = some r
    ∧ lookupStr (buildAgentEnv base r t s u) "DAILY_TOKEN" = some t
    ∧ lookupStr (buildAgentEnv base r t s u) "SESSION_ID" = some s
    ∧ lookupStr (buildAgentEnv base r t s u) "USER_ID" = some u := by
  unfold buildAgentEnv
  refine ⟨?_, ?_, ?_, ?_⟩
  · rw [lookupStr_upsert_ne _ _ _ _ (by decide),
      lookupStr_upsert_ne _ _ _ _ (by decide),
      lookupStr_upsert_ne _ _ _ _ (by decide), lookupStr_upsert_self]
  · rw [lookupStr_upsert_ne _ _ _ _ (by decide),
      lookupStr_upsert_ne _ _ _ _ (by decide), lookupStr_upsert_self]
  · rw [lookupStr_upsert_ne _ _ _ _ (by decide), lookupStr_upsert_self]
  · rw [lookupStr_upsert_self]

/-- A well-formed `/start-agent` payload used as concrete test data. -/
def exData : List (String × String) :=
  [("room_url", "https://x.daily.co/room"), ("token", "tok"),
   ("session_id", "sess1"), ("user_id", "user1")]

/-- A payload whose `token` field is missing. -/
def exBadData : List (String × String) :=
  [("room_url", "https://x.daily.co/room"), ("session_id", "sess1"),
   ("user_id", "user1")]

/-- Orchestrator state after two successful `/start-agent` requests carrying
the same session_id. -/
def exState2 : OrchState :=
  (start_agent (start_agent initState [] exData false).1 [] exData false).1

/-- Claim C9: `/start-agent` is atomic on validation failure. If the payload
is missing one of room_url, token, session_id, user_id, the handler answers
400 naming the first missing field (in the order of `required_fields`),
spawns no subprocess, and leaves the whole state, `active_agents` included,
unchanged. -/
theorem start_agent_validation_atomic (st : OrchState)
    (base data : List (String × String)) (crashed : Bool) (f : String)
    (h : firstMissing data = some f) :
    start_agent st base data crashed =
      (st, { status := 400, error := some ("Missing required field: " ++ f),
             session_id := none, pid := none }) := by
  simp [start_agent, h]

/-- Witness for C9: the payload `exBadData` lacks `token`; the handler
returns 400 and the state is untouched. -/
theorem start_agent_validation_atomic_witness :
    start_agent initState [] exBadData false =
      (initState,
       { status := 400, error := some ("Missing required field: " ++ "token"),
         session_id := none, pid := none }) :=
  start_agent_validation_atomic initState [] exBadData false "token" (by decide)

/-- Claim C5: the orchestrator's only supervision is one poll 500ms after
the spawn. On a valid payload, when the single poll finds the process
already exited the handler deletes the session entry and answers 500 with
"Agent crashed on startup"; when the process is still running it answers
200 with the session_id and the pid, and no further monitoring exists in
the model (the handler consumes exactly one poll outcome). -/
theorem start_agent_single_poll (st : OrchState)
    (base data : List (String × String)) (h : firstMissing data = none) :
    startup_poll_delay_ms = 500
    ∧ (start_agent st base data true).2.status = 500
    ∧ (start_agent st base data true).2.error = some "Agent crashed on startup"
    ∧ lookupAgent (start_agent st base data true).1.active_agents
        ((lookupStr data "session_id").getD "") = none
    ∧ (start_agent st base data false).2.status = 200
    ∧ (start_agent st base data false).2.session_id = lookupStr data "session_id"
    ∧ (start_agent st base data false).2.pid = some st.nextPid := by
  obtain ⟨v, hv⟩ := firstMissing_none_lookup data h "session_id" (by decide)
  refine ⟨rfl, ?_, ?_, ?_, ?_, ?_, ?_⟩ <;>
    simp [start_agent, h, hv, lookupAgent_removeAgent_self]

/-- Witness for C5 at the concrete payload `exData`. -/
theorem start_agent_single_poll_witness :
    startup_poll_delay_ms = 500
    ∧ (start_agent initState [] exData true).2.status = 500
    ∧ (start_agent initState [] exData true).2.error =
        some "Agent crashed on startup"
    ∧ lookupAgent (start_agent initState [] exData true).1.active_agents
        ((lookupStr exData "session_id").getD "") = none
    ∧ (start_agent initState [] exData false).2.status = 200
    ∧ (start_agent initState [] exData false).2.session_id =
        lookupStr exData "session_id"
    ∧ (start_agent initState [] exData false).2.pid = some initState.nextPid :=
  start_agent_single_poll initState [] exData (by decide)

/-- Claim C8: a successfully spawned relay process is bound to exactly the
session and room of its request. On a valid payload the spawned subprocess
(the last entry of the process table) has an environment mapping
DAILY_ROOM_URL, DAILY_TOKEN, SESSION_ID and USER_ID to the payload's
room_url, token, session_id and user_id, and the `active_agents` entry
stored under that session_id records the same room_url and user_id (and
that process's pid). -/
theorem start_agent_binds_session_env (st : OrchState)
    (base data : List (String × String)) (h : firstMissing data = none) :
    ∃ q : Proc,
      (start_agent st base data false).1.procs.getLast? = some q
      ∧ lookupStr q.env "DAILY_ROOM_URL" = lookupStr data "room_url"
      ∧ lookupStr q.env "DAILY_TOKEN" = lookupStr data "token"
      ∧ lookupStr q.env "SESSION_ID" = lookupStr data "session_id"
      ∧ lookupStr q.env "USER_ID" = lookupStr data "user_id"
      ∧ lookupAgent (start_agent st base data false).1.active_agents
          ((lookupStr data "session_id").getD "") =
        some { pid := q.pid, room_url := (lookupStr data "room_url").getD "",
               user_id := (lookupStr data "user_id").getD "" } := by
  obtain ⟨vr, hr⟩ := firstMissing_none_lookup data h "room_url" (by decide)
  obtain ⟨vt, ht⟩ := firstMissing_none_lookup data h "token" (by decide)
  obtain ⟨vs, hs⟩ := firstMissing_none_lookup data h "session_id" (by decide)
  obtain ⟨vu, hu⟩ := firstMissing_none_lookup data h "user_id" (by decide)
  have henv := buildAgentEnv_lookups base vr vt vs vu
  refine ⟨{ pid := st.nextPid, env := buildAgentEnv base vr vt vs vu,
            alive := true }, ?_, ?_, ?_, ?_, ?_, ?_⟩
  · simp [start_agent, h, hr, ht, hs, hu, getLast?_append_singleton]
  · rw [henv.1, hr]
  · rw [henv.2.1, ht]
  · rw [henv.2.2.1, hs]
  · rw [henv.2.2.2, hu]
  · simp [start_agent, h, hr, ht, hs, hu, lookupAgent_upsert_self]

/-- Witness for C8 at the concrete payload `exData`, with a base environment
that already contains a stale SESSION_ID (overwritten by the update). -/
theorem start_agent_binds_session_env_witness :
    ∃ q : Proc,
      (start_agent initState [("PATH", "/usr/bin"), ("SESSION_ID", "stale")]
          exData false).1.procs.getLast? = some q
      ∧ lookupStr q.env "DAILY_ROOM_URL" = lookupStr exData "room_url"
      ∧ lookupStr q.env "DAILY_TOKEN" = lookupStr exData "token"
      ∧ lookupStr q.env "SESSION_ID" = lookupStr exData "session_id"
      ∧ lookupStr q.env "USER_ID" = lookupStr exData "user_id"
      ∧ lookupAgent (start_agent initState
            [("PATH", "/usr/bin"), ("SESSION_ID", "stale")] exData
            false).1.active_agents
          ((lookupStr exData "session_id").getD "") =
        some { pid := q.pid, room_url := (lookupStr exData "room_url").getD "",
               user_id := (lookupStr exData "user_id").getD "" } :=
  start_agent_binds_session_env initState
    [("PATH", "/usr/bin"), ("SESSION_ID", "stale")] exData (by decide)

set_option maxRecDepth 8000 in
/-- Counterexample to claim C1 as stated: after two `/start-agent` requests
for the same session_id "sess1" (both polls finding the process alive), two
live relay processes whose environment binds SESSION_ID to "sess1" exist,
while `active_agents` tracks only the second; the first process is alive
and untracked, so the one-live-process-per-session invariant fails. -/
theorem duplicate_start_leaves_untracked_process :
    (exState2.procs.filter (fun q => q.alive &&
        (lookupStr q.env "SESSION_ID" == some "sess1"))).length = 2
    ∧ exState2.active_agents.map Prod.fst = ["sess1"]
    ∧ ∃ q ∈ exState2.procs, q.alive = true ∧
        ∀ e ∈ exState2.active_agents, e.2.pid ≠ q.pid := by
  refine ⟨by decide, by decide, by decide⟩

/-- Claim C1, amended: the orchestrator keeps at most one *tracked* agent
entry per session_id — in every reachable state `active_agents` binds each
session_id to at most one entry — but it does not guarantee at most one
*live* process per session: a repeated `/start-agent` overwrites the entry
and leaves the previously spawned process running untracked. -/
theorem active_agents_at_most_one_tracked_entry
    (base : List (String × String)) (st : OrchState)
    (h : Reachable base st) (sid : String) :
    st.active_agents.countP (fun e => e.1 == sid) ≤ 1 := by
  induction h with
  | init => simp [initState]
  | start st' data crashed hr ih =>
    cases hfm : firstMissing data with
    | some f => simpa [start_agent, hfm] using ih
    | none =>
      cases crashed with
      | true =>
        simp only [start_agent, hfm]
        simp only [if_true, reduceIte]
        exact le_trans (countP_removeAgent_le _ _ _)
          (countP_upsertAgent_le_one _ _ _ _ ih)
      | false =>
        simp only [start_agent, hfm]
        simp only [Bool.false_eq_true, if_false, reduceIte]
        exact countP_upsertAgent_le_one _ _ _ _ ih
  | stop st' sid' exited hr ih =>
    cases hla : lookupAgent st'.active_agents sid' with
    | none => simpa [stop_agent, hla] using ih
    | some info =>
      cases exited with
      | true =>
        simp only [stop_agent, hla]
        simp only [if_true, reduceIte]
        exact le_trans (countP_removeAgent_le _ _ _) ih
      | false => simpa [stop_agent, hla] using ih

/-- Witness for the amended C1 at the reachable state `exState2`. -/
theorem active_agents_at_most_one_tracked_entry_witness :
    exState2.active_agents.countP (fun e => e.1 == "sess1") ≤ 1 :=
  active_agents_at_most_one_tracked_entry [] exState2
    (Reachable.start (start_agent initState [] exData false).1 exData false
      (Reachable.start initState exData false Reachable.init)) "sess1"
